import Mathlib

/-!
Verification of the asset core of the vk_cg_pipeline repository.

The development shallowly embeds the Python classes of the repository:

* Store (pipeline/database/store.py) becomes a keyed association list read
  through the same accessor chain as the source.
* Container and its two subclasses FileContainer / AssetContainer
  (core/assets/container.py and the container subclasses of
  vk_pipeline_core/src/VK/pipeline/core/assets/asset.py) become a record
  with a content-kind tag; the Python-2 dynamic behaviours that the source
  relies on - filter returning a list, len(None) raising TypeError, an
  int compared to a str being False, AssetVersion.__eq__ raising TypeError
  against foreign types - are made explicit in the Except-valued methods.
* Asset / AssetVersion (vk_pipeline_core/src/VK/pipeline/core/assets/asset.py,
  with the earlier revision assets/asset.py embedded where it differs) become
  records built by Except-valued constructors mirroring __init__,
  _load_versions, _initialize_container, _load_container, _load_dependencies
  and dependencies.
* The name-rule engine (pipeline/core/assets/utils.py) is embedded with the
  rule regex modelled as an opaque full-match predicate (the regex comes from
  external configuration and is matched by the external re library), while
  the fixed token sub-pattern of the source is implemented concretely.

Logging calls are pure diagnostics in the source and are not modelled.
-/

namespace VKPipeline

/-- The CONTENT_TYPE constants of the missing constants module: the two
container kinds the factories recognise (File = leaf, Asset = composite). -/
inductive ContentType : Type where
  | File : ContentType
  | Asset : ContentType
  deriving DecidableEq

/-- One element held by a container: either a file-path string (FileContainer)
or a reference to an AssetVersion, recorded by its (slot, version) identity
(AssetContainer). -/
inductive Entry : Type where
  | file : String → Entry
  | assetRef : String → Nat → Entry
  deriving DecidableEq

/-- The exceptions the embedded code can raise: the pipeline exception types
from assets/exceptions.py plus the Python runtime errors the source can hit. -/
inductive PErr : Type where
  | dataMismatch : PErr
  | missingDBData : PErr
  | tokenNotFound : PErr
  | assetVersionInitialization : PErr
  | typeError : PErr
  | attributeError : PErr
  | valueError : PErr
  deriving DecidableEq

/-- The payload the Store keeps for one version of one slot: its content list
and its recorded dependency (slot, version) pairs.  A JSON object with a
missing key is modelled by the empty list, matching the .get defaults. -/
structure VersionPayload : Type where
  contents : List Entry
  dependencies : List (String × Nat)
  deriving DecidableEq

/-- The Store record for one slot: its 'type' value and its 'versions'
dictionary (version number, payload), kept in dict iteration order. -/
structure SlotData : Type where
  typeData : Option ContentType
  versions : Option (List (Nat × VersionPayload))
  deriving DecidableEq

/-- The Store singleton's _data dictionary: slot id keyed entries in dict
iteration order. -/
def StoreData : Type := List (String × SlotData)

/-- Store.get_entries: _data.get(slot, None). -/
def Store.get_entries (store : StoreData) (slot : String) : Option SlotData :=
  (List.find? (fun p => p.1 == slot) store).map Prod.snd

/-- Store.get_type_data: slot_data.get('type', None) when the entry exists. -/
def Store.get_type_data (store : StoreData) (slot : String) : Option ContentType :=
  (Store.get_entries store slot).bind SlotData.typeData

/-- Store.get_versions_data: slot_data.get('versions', None) when the entry
exists, with the JSON string keys already converted to integers. -/
def Store.get_versions_data (store : StoreData) (slot : String) :
    Option (List (Nat × VersionPayload)) :=
  (Store.get_entries store slot).bind SlotData.versions

/-- Store.get_version_data: versions_data.get(version, None). -/
def Store.get_version_data (store : StoreData) (slot : String) (version : Nat) :
    Option VersionPayload :=
  (Store.get_versions_data store slot).bind
    (fun l => (List.find? (fun p => p.1 == version) l).map Prod.snd)

/-- Store.get_dependency_data: version_data.get('dependencies', []), with []
when the version payload itself is absent. -/
def Store.get_dependency_data (store : StoreData) (slot : String) (version : Nat) :
    List (String × Nat) :=
  match Store.get_version_data store slot version with
  | some p => p.dependencies
  | none => []

/-- Store.get_content_data: version_data.get('contents', []), with [] when
the version payload itself is absent. -/
def Store.get_content_data (store : StoreData) (slot : String) (version : Nat) :
    List Entry :=
  match Store.get_version_data store slot version with
  | some p => p.contents
  | none => []

/-- The version numbers the Store reports for a slot, in reported order;
[] when the slot or its versions table is absent. -/
def store_version_keys (store : StoreData) (slot : String) : List Nat :=
  ((Store.get_versions_data store slot).getD []).map Prod.fst

/-- A Container object: its runtime class (File or Asset container) and its
_contents list. -/
structure Container : Type where
  type_ : ContentType
  contents : List Entry
  deriving DecidableEq

/-- The kind-specific _is_valid predicates: FileContainer accepts str/unicode
values, AssetContainer accepts AssetVersion instances. -/
def is_valid : ContentType → Entry → Bool
  | ContentType.File, Entry.file _ => true
  | ContentType.File, Entry.assetRef _ _ => false
  | ContentType.Asset, Entry.assetRef _ _ => true
  | ContentType.Asset, Entry.file _ => false

/-- Python 2 equality between two container entries.  Strings compare by
value; AssetVersions compare by (slot, version) through AssetVersion.__eq__;
comparing an AssetVersion with a non-AssetVersion reaches the raise TypeError
branch of __eq__. -/
def py_eq_entry : Entry → Entry → Except PErr Bool
  | Entry.file s, Entry.file t => Except.ok (s == t)
  | Entry.assetRef a v, Entry.assetRef b w => Except.ok (a == b && v == w)
  | _, _ => Except.error PErr.typeError

/-- Python membership (content in contents): the elements are compared with
== from the left until one matches. -/
def py_mem (c : Entry) : List Entry → Except PErr Bool
  | [] => Except.ok false
  | x :: xs => do
    let b ← py_eq_entry x c
    if b then Except.ok true else py_mem c xs

/-- The value _find_content can produce: Python None (FileContainer, absent),
the found object itself (FileContainer, present), or the filter result list
(AssetContainer). -/
inductive FindRes : Type where
  | pyNone : FindRes
  | found : Entry → FindRes
  | listRes : List Entry → FindRes
  deriving DecidableEq

/-- AssetContainer._find_content's filter body: it calls .slot()/.version()
on every element, so a string element raises AttributeError. -/
def asset_filter (s : String) (v : Nat) : List Entry → Except PErr (List Entry)
  | [] => Except.ok []
  | Entry.file _ :: _ => Except.error PErr.attributeError
  | Entry.assetRef a w :: rest =>
    (asset_filter s v rest).map
      (fun r => if a == s && w == v then Entry.assetRef a w :: r else r)

/-- _find_content: FileContainer returns the content if it is in _contents
else None; AssetContainer returns the list of entries with the same
(slot, version) identity.  A non-AssetVersion argument to the AssetContainer
variant raises AttributeError at content.slot(). -/
def Container.find_content (c : Container) (e : Entry) : Except PErr FindRes :=
  match c.type_ with
  | ContentType.File =>
    (py_mem e c.contents).map (fun b => if b then FindRes.found e else FindRes.pyNone)
  | ContentType.Asset =>
    match e with
    | Entry.file _ => Except.error PErr.attributeError
    | Entry.assetRef s v => (asset_filter s v c.contents).map FindRes.listRes

/-- Container._exists: self._find_content(content) is not None.  Note that the
AssetContainer variant returns a list, which is never None, even when empty. -/
def Container.exists_content (c : Container) (e : Entry) : Except PErr Bool :=
  (c.find_content e).map
    (fun r => match r with | FindRes.pyNone => false | _ => true)

/-- Container.set_contents: the list replaces _contents exactly when every
element passes _is_valid (the source compares the filtered length with the
full length); otherwise _contents is left unchanged. -/
def Container.set_contents (c : Container) (l : List Entry) : Container :=
  if (l.filter (is_valid c.type_)).length = l.length then
    { c with contents := l }
  else c

/-- Container.add_content: append the item when _is_valid holds and _exists
does not; otherwise a silent no-op.  The and short-circuits, so _exists is
only evaluated for valid items. -/
def Container.add_content (c : Container) (e : Entry) : Except PErr Container :=
  if is_valid c.type_ e then
    (c.exists_content e).map
      (fun b => if b then c else { c with contents := c.contents ++ [e] })
  else Except.ok c

/-- len() applied to a _find_content result: len(None) raises TypeError,
len(str) is the string length, len(AssetVersion) raises TypeError (the class
defines no __len__), len(list) is the list length. -/
def py_len : FindRes → Except PErr Nat
  | FindRes.pyNone => Except.error PErr.typeError
  | FindRes.found (Entry.file s) => Except.ok s.length
  | FindRes.found (Entry.assetRef _ _) => Except.error PErr.typeError
  | FindRes.listRes l => Except.ok l.length

/-- Python 2 comparison of an int with a container entry: int == str is
simply False (different types compare unequal without error in Python 2);
int == AssetVersion dispatches to AssetVersion.__eq__, which raises
TypeError for non-AssetVersion arguments. -/
def py_eq_nat_entry : Nat → Entry → Except PErr Bool
  | _, Entry.file _ => Except.ok false
  | _, Entry.assetRef _ _ => Except.error PErr.typeError

/-- list.remove(content): drop the first element equal to content, raising
ValueError when none is equal. -/
def py_list_remove (e : Entry) : List Entry → Except PErr (List Entry)
  | [] => Except.error PErr.valueError
  | x :: xs => do
    let b ← py_eq_entry x e
    if b then Except.ok xs else (py_list_remove e xs).map (fun r => x :: r)

/-- Container.remove_content, exactly as written in the source:
if len(self._find_content(content)) == content: self._contents.remove(content).
The guard compares a length with the content object itself. -/
def Container.remove_content (c : Container) (e : Entry) : Except PErr Container :=
  do
    let fr ← c.find_content e
    let n ← py_len fr
    let b ← py_eq_nat_entry n e
    if b then (py_list_remove e c.contents).map (fun l => { c with contents := l })
    else Except.ok c

/-- Container.load_contents: FileContainer bulk-sets the Store content list;
AssetContainer add_content's each Store content item in order.  The
CheckZeroContents guard only logs and is not modelled. -/
def Container.load_contents (store : StoreData) (c : Container)
    (slotId : String) (version : Nat) : Except PErr Container :=
  match c.type_ with
  | ContentType.File =>
    Except.ok (c.set_contents (Store.get_content_data store slotId version))
  | ContentType.Asset =>
    (Store.get_content_data store slotId version).foldlM Container.add_content c

/-- A Slot object: its path string (the id) and its declared content type
(None when the type keyword was not supplied). -/
structure Slot : Type where
  id : String
  type_ : Option ContentType
  deriving DecidableEq

/-- An AssetVersion object of the packaged revision
(vk_pipeline_core/src/VK/pipeline/core/assets/asset.py): the slot id and
slot type it reads from its parent Asset, its version number, its _container,
its _dependencies list and the _dependencies_loaded flag.  The dependency
elements are themselves AssetVersion objects, hence the nested recursion. -/
inductive AssetVersionSt : Type where
  | mk : String → Option ContentType → Nat → Option Container →
      List AssetVersionSt → Bool → AssetVersionSt

/-- AssetVersion.slot(): the slot id. -/
def AssetVersionSt.slotId : AssetVersionSt → String
  | AssetVersionSt.mk s _ _ _ _ _ => s

/-- AssetVersion.slot_type(): the declared content type. -/
def AssetVersionSt.slotType : AssetVersionSt → Option ContentType
  | AssetVersionSt.mk _ t _ _ _ _ => t

/-- AssetVersion.version(). -/
def AssetVersionSt.version : AssetVersionSt → Nat
  | AssetVersionSt.mk _ _ v _ _ _ => v

/-- The _container field. -/
def AssetVersionSt.container : AssetVersionSt → Option Container
  | AssetVersionSt.mk _ _ _ c _ _ => c

/-- The _dependencies field. -/
def AssetVersionSt.deps : AssetVersionSt → List AssetVersionSt
  | AssetVersionSt.mk _ _ _ _ d _ => d

/-- The _dependencies_loaded flag. -/
def AssetVersionSt.depsLoaded : AssetVersionSt → Bool
  | AssetVersionSt.mk _ _ _ _ _ b => b

/-- AssetVersion.contents(): None if not self._container else the container
contents. -/
def AssetVersionSt.contents? (av : AssetVersionSt) : Option (List Entry) :=
  av.container.map Container.contents

/-- The state update performed by dependencies(): store the resolved list and
set _dependencies_loaded. -/
def AssetVersionSt.withDeps : AssetVersionSt → List AssetVersionSt → Bool → AssetVersionSt
  | AssetVersionSt.mk s t v c _ _, d, b => AssetVersionSt.mk s t v c d b

/-- An Asset object: its Slot, its _versions list and _latest_version. -/
structure Asset : Type where
  slot : Slot
  versions : List AssetVersionSt
  latest_version : Nat

/-- container_factory: FileContainer for File, AssetContainer for Asset,
and Python None for anything else (the function falls through). -/
def container_factory : Option ContentType → Option Container
  | some ContentType.File => some (Container.mk ContentType.File [])
  | some ContentType.Asset => some (Container.mk ContentType.Asset [])
  | none => none

/-- AssetVersion._is_new_version: the Store has no payload for this
(slot, version). -/
def AssetVersion.is_new_version (store : StoreData) (slotId : String)
    (version : Nat) : Bool :=
  (Store.get_version_data store slotId version).isNone

/-- AssetVersion._initialize_container of the packaged revision.  The factory
result is assigned to _container first (it can be None).  For a new version,
missing or empty contents raise AssetVersionInitializationException before
the container is touched; otherwise set_contents - or load_contents for an
existing version - is called on the container, raising AttributeError if the
factory returned None. -/
def AssetVersion.init_container (store : StoreData) (slotId : String)
    (slotType : Option ContentType) (version : Nat)
    (contents : Option (List Entry)) : Except PErr Container :=
  let contOpt := container_factory slotType
  if AssetVersion.is_new_version store slotId version then
    match contents with
    | none => Except.error PErr.assetVersionInitialization
    | some [] => Except.error PErr.assetVersionInitialization
    | some cs =>
      match contOpt with
      | none => Except.error PErr.attributeError
      | some cont => Except.ok (cont.set_contents cs)
  else
    match contOpt with
    | none => Except.error PErr.attributeError
    | some cont => Container.load_contents store cont slotId version

/-- The AssetVersion constructor of the packaged revision: it stores the
parent asset's slot id and slot type, the version number, runs
_initialize_container, and starts with no dependencies and the loaded flag
down. -/
def AssetVersion.init (store : StoreData) (slotId : String)
    (slotType : Option ContentType) (version : Nat)
    (contents : Option (List Entry)) : Except PErr AssetVersionSt :=
  (AssetVersion.init_container store slotId slotType version contents).map
    (fun c => AssetVersionSt.mk slotId slotType version (some c) [] false)

/-- The comparison asset_type != self.slot_type() performed by
_load_versions: the Store value is compared against the str() of the slot
type, so the check passes exactly when both are present and equal (a missing
Store type never equals the string form). -/
def type_matches : Option ContentType → Option ContentType → Bool
  | some a, some b => a == b
  | _, _ => false

/-- The for-loop of Asset._load_versions: build an AssetVersion bound to this
asset for every version number the Store reported, in iteration order. -/
def Asset.build_versions (store : StoreData) (slotId : String)
    (slotType : Option ContentType) : List Nat → Except PErr (List AssetVersionSt)
  | [] => Except.ok []
  | v :: vs =>
    match AssetVersion.init store slotId slotType v none with
    | Except.error e => Except.error e
    | Except.ok av =>
      match Asset.build_versions store slotId slotType vs with
      | Except.error e => Except.error e
      | Except.ok rest => Except.ok (av :: rest)

/-- Asset._load_versions of the packaged revision.  No Store entry: the
version list stays empty (a warning only).  A type mismatch raises
DataMismatchException.  An entry whose versions table is missing makes the
for-loop iterate None, a Python TypeError.  Otherwise every reported version
number produces an AssetVersion, and _latest_version becomes the version of
the last element (0 when there is none). -/
def Asset.load_versions (store : StoreData) (slot : Slot) :
    Except PErr (List AssetVersionSt × Nat) :=
  match Store.get_entries store slot.id with
  | none => Except.ok ([], 0)
  | some _ =>
    if type_matches (Store.get_type_data store slot.id) slot.type_ then
      match Store.get_versions_data store slot.id with
      | none => Except.error PErr.typeError
      | some vdict =>
        (Asset.build_versions store slot.id slot.type_ (vdict.map Prod.fst)).map
          (fun vs =>
            (vs, match vs.getLast? with | none => 0 | some av => av.version))
    else Except.error PErr.dataMismatch

/-- The Asset constructor: store the slot and run _load_versions. -/
def Asset.load (store : StoreData) (slot : Slot) : Except PErr Asset :=
  (Asset.load_versions store slot).map (fun p => Asset.mk slot p.1 p.2)

/-- Asset.add_version of the packaged revision: construct an AssetVersion
numbered _latest_version + 1 with the given contents, append it and increment
_latest_version.  The method body has no return statement, so the Python
caller receives None; the second component of the result records that
returned value. -/
def Asset.add_version (store : StoreData) (a : Asset)
    (contents : Option (List Entry)) :
    Except PErr (Asset × Option AssetVersionSt) :=
  (AssetVersion.init store a.slot.id a.slot.type_ (a.latest_version + 1) contents).map
    (fun av =>
      ({ a with versions := a.versions ++ [av],
                latest_version := a.latest_version + 1 }, none))

/-- The loop body of AssetVersion._load_dependencies of the packaged
revision: for every recorded (slot, version) pair, read the dependency
slot's type from the Store, build a Slot and an Asset for it (a full
_load_versions pass), and keep every loaded AssetVersion whose version number
equals the recorded one. -/
def AssetVersion.resolve_deps (store : StoreData) :
    List (String × Nat) → Except PErr (List AssetVersionSt)
  | [] => Except.ok []
  | d :: ds =>
    match Asset.load store (Slot.mk d.1 (Store.get_type_data store d.1)) with
    | Except.error e => Except.error e
    | Except.ok a =>
      match AssetVersion.resolve_deps store ds with
      | Except.error e => Except.error e
      | Except.ok rest =>
        Except.ok ((a.versions.filter (fun x => x.version == d.2)) ++ rest)

/-- AssetVersion._load_dependencies: resolve the Store-recorded pairs for
this (slot, version), appending the matches to _dependencies. -/
def AssetVersion.load_dependencies (store : StoreData) (av : AssetVersionSt) :
    Except PErr (List AssetVersionSt) :=
  AssetVersion.resolve_deps store
    (Store.get_dependency_data store av.slotId av.version)

/-- AssetVersion.dependencies(): when _dependencies_loaded is already set the
cached _dependencies list is returned without touching the Store (the
returned state is unchanged); otherwise _load_dependencies runs, the flag is
set, and the now-cached list is returned together with the updated object. -/
def AssetVersion.dependencies (store : StoreData) (av : AssetVersionSt) :
    Except PErr (List AssetVersionSt × AssetVersionSt) :=
  if av.depsLoaded then Except.ok (av.deps, av)
  else
    (AssetVersion.load_dependencies store av).map
      (fun ds => (av.deps ++ ds, av.withDeps (av.deps ++ ds) true))

/-- AssetVersion._load_container of the earlier revision (assets/asset.py).
A missing version payload only logs a warning and leaves _container as None;
a present payload with a missing Store type raises MissingDBDataException;
otherwise the factory container for the Store type loads its contents. -/
def AssetVersion.load_container (store : StoreData) (slotId : String)
    (version : Nat) : Except PErr (Option Container) :=
  match Store.get_version_data store slotId version with
  | none => Except.ok none
  | some _ =>
    match Store.get_type_data store slotId with
    | none => Except.error PErr.missingDBData
    | some t =>
      (Container.load_contents store (Container.mk t []) slotId version).map some

/-- A name rule from the external configuration: the compiled form of
re.match with the rule regex wrapped in one group, checked to have consumed
the whole slot (modelled as an opaque full-match predicate, since the regex
text is external configuration matched by the external re library), plus the
declared token list. -/
structure NameRule : Type where
  fullMatch : String → Bool
  tokens : List String

/-- AssetNameGenerator._get_tokens: scan the rules in iteration order and
return the token list of the first rule that fully matches the slot and
declares a non-empty token list; otherwise the empty list (a full match with
an empty token list only overwrites the running empty result). -/
def get_tokens : List NameRule → String → List String
  | [], _ => []
  | r :: rs, slot =>
    if r.fullMatch slot && !r.tokens.isEmpty then r.tokens
    else get_tokens rs slot

/-- The character class [a-z0-9] of the token sub-pattern. -/
def is_token_char (c : Char) : Bool :=
  (('a' : Char) ≤ c && c ≤ ('z' : Char)) || c.isDigit

/-- The start positions at which /token:<token char> occurs in the slot:
these are the positions the backtracking greedy .* of the sub-pattern
.*\/token:([a-z0-9]+) can hand to the literal part. -/
def token_positions (slot token : List Char) : List Nat :=
  (List.range slot.length).filter (fun i =>
    let pat := '/' :: (token ++ [':'])
    ((slot.drop i).take pat.length == pat) &&
      (match (slot.drop (i + pat.length)).head? with
       | some c => is_token_char c
       | none => false))

/-- The value captured by re.match(".*\/token:([a-z0-9]+)", slot): the
greedy .* picks the last viable occurrence of /token: and the greedy + takes
the maximal [a-z0-9] run after it; None when there is no viable occurrence. -/
def slot_token_capture (slot token : List Char) : Option (List Char) :=
  match (token_positions slot token).getLast? with
  | none => none
  | some i =>
    some ((slot.drop (i + token.length + 2)).takeWhile is_token_char)

/-- slot_parser of pipeline/core/assets/utils.py: return the captured group,
or raise TokenNotFoundException when the sub-pattern does not match.  The
model is faithful for token names without regex metacharacters, which is what
the configuration supplies. -/
def parse_slot_token (slot token : String) : Except PErr String :=
  match slot_token_capture slot.data token.data with
  | some cs => Except.ok (String.mk cs)
  | none => Except.error PErr.tokenNotFound

/-- The generator expression inside the join of generate_name: the token
values are extracted left to right and the first failing token raises. -/
def parse_all (slot : String) : List String → Except PErr (List String)
  | [] => Except.ok []
  | t :: ts =>
    match parse_slot_token slot t with
    | Except.error e => Except.error e
    | Except.ok v =>
      match parse_all slot ts with
      | Except.error e => Except.error e
      | Except.ok vs => Except.ok (v :: vs)

/-- AssetNameGenerator.generate_name of pipeline/core/assets/utils.py:
join the token values extracted from the slot with an underscore; the join
consumes the generator left to right, so the first failing token raises
TokenNotFoundException - which the try/except around the join catches,
logging an error and returning Python None to the caller. -/
def generate_name (rules : List NameRule) (slot : String) :
    Except PErr (Option String) :=
  match parse_all slot (get_tokens rules slot) with
  | Except.ok vs => Except.ok (some (String.intercalate "_" vs))
  | Except.error PErr.tokenNotFound => Except.ok none
  | Except.error e => Except.error e

instance {ε α : Type} [DecidableEq ε] [DecidableEq α] : DecidableEq (Except ε α)
  | Except.ok a, Except.ok b =>
    if h : a = b then Decidable.isTrue (by rw [h])
    else Decidable.isFalse (fun hh => h (Except.ok.inj hh))
  | Except.ok _, Except.error _ => Decidable.isFalse (fun hh => Except.noConfusion hh)
  | Except.error _, Except.ok _ => Decidable.isFalse (fun hh => Except.noConfusion hh)
  | Except.error e, Except.error f =>
    if h : e = f then Decidable.isTrue (by rw [h])
    else Decidable.isFalse (fun hh => h (Except.error.inj hh))

/-- A Store whose entry for slot S reports only version 2: a history with a
gap at 1 that the loader accepts as-is. -/
def storeC3 : StoreData :=
  [("S", SlotData.mk (some ContentType.File)
      (some [(2, VersionPayload.mk [Entry.file "/x"] [])]))]

/-- A Store whose entry for slot S reports versions 1 and 2 in order. -/
def storeC3w : StoreData :=
  [("S", SlotData.mk (some ContentType.File)
      (some [(1, VersionPayload.mk [Entry.file "/a"] []),
             (2, VersionPayload.mk [Entry.file "/b"] [])]))]

/-- The declared slot S of kind File. -/
def slotC3 : Slot := Slot.mk "S" (some ContentType.File)

/-- The Asset the loader yields for a slot the Store has never seen. -/
def assetC2 : Asset := Asset.mk (Slot.mk "N" (some ContentType.File)) [] 0

/-- A Store where slot A's version 1 records a dependency on (B, 2), while
slot B's history only contains version 1. -/
def storeC10 : StoreData :=
  [("A", SlotData.mk (some ContentType.File)
      (some [(1, VersionPayload.mk [Entry.file "/x"] [("B", 2)])])),
   ("B", SlotData.mk (some ContentType.File)
      (some [(1, VersionPayload.mk [Entry.file "/y"] [])]))]

/-- The AssetVersion (A, 1) as loaded from storeC10's history. -/
def avC10 : AssetVersionSt :=
  AssetVersionSt.mk "A" (some ContentType.File) 1
    (some (Container.mk ContentType.File [Entry.file "/x"])) [] false

/-- A fresh AssetVersion whose dependencies are not loaded yet. -/
def avC1 : AssetVersionSt :=
  AssetVersionSt.mk "A" (some ContentType.File) 1 none [] false

/-- The same AssetVersion after its first dependencies() call against the
empty Store: no dependencies, flag set. -/
def avC1done : AssetVersionSt :=
  AssetVersionSt.mk "A" (some ContentType.File) 1 none [] true

/-- A one-rule configuration whose rule fully matches the slot P:x/A:b and
declares the tokens A and MISS; MISS has no occurrence in the slot. -/
def rulesC5 : List NameRule :=
  [NameRule.mk (fun s => s == "P:x/A:b") ["A", "MISS"]]

/-- A one-rule configuration whose rule fully matches X:1/T:a and declares
the tokens T and Q; Q has no occurrence in the slot. -/
def rulesC5w : List NameRule :=
  [NameRule.mk (fun s => s == "X:1/T:a") ["T", "Q"]]

/-! ## Helper lemmas -/

/-- The filtered-length test of set_contents succeeds exactly when every
element passes the predicate. -/
theorem length_filter_eq_iff_all {α : Type} (p : α → Bool) (l : List α) :
    (l.filter p).length = l.length ↔ ∀ x ∈ l, p x = true := by
  induction l with
  | nil => simp
  | cons a l ih =>
    cases h : p a with
    | true => simp [List.filter_cons, h, ih]
    | false =>
      have hle := List.length_filter_le p l
      simp only [List.filter_cons, h, Bool.false_eq_true, if_false,
        List.length_cons, List.mem_cons]
      constructor
      · intro heq; omega
      · intro hall
        exact absurd (hall a (Or.inl rfl)) (by simp [h])

/-- set_contents with an all-valid list replaces the contents. -/
theorem set_contents_eq_of_all (k : ContentType) (old l : List Entry)
    (h : ∀ e ∈ l, is_valid k e = true) :
    (Container.mk k old).set_contents l = Container.mk k l := by
  unfold Container.set_contents
  rw [if_pos ((length_filter_eq_iff_all (is_valid k) l).mpr h)]

/-- set_contents with an invalid element keeps the prior contents. -/
theorem set_contents_eq_of_bad (k : ContentType) (old l : List Entry)
    (h : ∃ e ∈ l, is_valid k e = false) :
    (Container.mk k old).set_contents l = Container.mk k old := by
  unfold Container.set_contents
  rw [if_neg]
  intro hlen
  obtain ⟨e, hmem, hbad⟩ := h
  have := (length_filter_eq_iff_all (is_valid k) l).mp hlen e hmem
  simp [this] at hbad

/-- withDeps sets the loaded flag it is given. -/
theorem withDeps_depsLoaded (av : AssetVersionSt) (d : List AssetVersionSt)
    (b : Bool) : (av.withDeps d b).depsLoaded = b := by
  cases av; rfl

/-- withDeps stores the dependency list it is given. -/
theorem withDeps_deps (av : AssetVersionSt) (d : List AssetVersionSt)
    (b : Bool) : (av.withDeps d b).deps = d := by
  cases av; rfl

/-! ## C4, C6, C7: container operations -/

/-- C4: the claim that add_content appends a valid, non-duplicate item fails
on the composite container: AssetContainer._find_content returns a filter
result list, which is never Python None, so Container._exists is always true
and a valid fresh AssetVersion reference is silently dropped.  The leaf
container, whose _find_content does return None when the item is absent,
appends as the claim describes.  This contradicts the evident protocol of
_exists (and the de-duplication design the spec records), so the composite
branch is a code bug, witnessed here by evaluating the code: adding the valid
reference (A, 1) to an empty composite container leaves it empty. -/
theorem c4_composite_add_content_bug :
    Container.add_content (Container.mk ContentType.Asset []) (Entry.assetRef "A" 1) =
      Except.ok (Container.mk ContentType.Asset []) ∧
    Container.add_content (Container.mk ContentType.File []) (Entry.file "/p") =
      Except.ok (Container.mk ContentType.File [Entry.file "/p"]) := by
  exact ⟨rfl, rfl⟩

/-- C6: set_contents is all-or-nothing: when every element of the list is
valid for the container's kind the content list is replaced wholesale, and
when any element is invalid the prior contents are retained unchanged. -/
theorem c6_set_contents_all_or_nothing (c : Container) (l : List Entry) :
    ((∀ e ∈ l, is_valid c.type_ e = true) → (c.set_contents l).contents = l) ∧
    ((∃ e ∈ l, is_valid c.type_ e = false) → (c.set_contents l).contents = c.contents) := by
  obtain ⟨k, old⟩ := c
  constructor
  · intro h
    rw [set_contents_eq_of_all k old l h]
  · intro h
    rw [set_contents_eq_of_bad k old l h]

/-- Witness for C6 at concrete inputs: a fully valid list replaces the single
prior entry; a list containing an invalid composite reference is rejected and
the prior entry survives. -/
theorem c6_set_contents_all_or_nothing_witness :
    ((Container.mk ContentType.File [Entry.file "/old"]).set_contents
        [Entry.file "/a", Entry.file "/b"]).contents = [Entry.file "/a", Entry.file "/b"] ∧
    ((Container.mk ContentType.File [Entry.file "/old"]).set_contents
        [Entry.file "/a", Entry.assetRef "X" 1]).contents = [Entry.file "/old"] := by
  refine ⟨(c6_set_contents_all_or_nothing _ _).1 (by decide),
          (c6_set_contents_all_or_nothing _ _).2 ⟨Entry.assetRef "X" 1, by decide, rfl⟩⟩

/-- C7: the claim that remove_content removes a matching entry and is a no-op
otherwise fails on every path, because the source guards the removal with
len(self._find_content(content)) == content, comparing a length with the
content object itself.  Evaluating the code: a present leaf entry is NOT
removed (the int/str comparison is False in Python 2); an absent leaf entry
raises TypeError (len(None)); a composite entry raises TypeError
(AssetVersion.__eq__ called with an int).  The guard is an evident slip, so
this is a code bug. -/
theorem c7_remove_content_bug :
    Container.remove_content (Container.mk ContentType.File [Entry.file "/a"])
        (Entry.file "/a") = Except.ok (Container.mk ContentType.File [Entry.file "/a"]) ∧
    Container.remove_content (Container.mk ContentType.File []) (Entry.file "/a") =
      Except.error PErr.typeError ∧
    Container.remove_content (Container.mk ContentType.Asset [Entry.assetRef "A" 1])
        (Entry.assetRef "A" 1) = Except.error PErr.typeError := by
  exact ⟨rfl, rfl, rfl⟩

/-! ## C1: dependencies() memoization -/

/-- After any successful dependencies() call the returned object has its
loaded flag set and caches exactly the returned list. -/
theorem dependencies_loaded_state (store : StoreData) (av : AssetVersionSt)
    (l : List AssetVersionSt) (av' : AssetVersionSt)
    (h : AssetVersion.dependencies store av = Except.ok (l, av')) :
    av'.depsLoaded = true ∧ av'.deps = l := by
  unfold AssetVersion.dependencies at h
  cases hb : av.depsLoaded with
  | true =>
    rw [hb] at h
    simp only [if_true] at h
    injection h with h'
    have h1 : av.deps = l := congrArg Prod.fst h'
    have h2 : av = av' := congrArg Prod.snd h'
    subst h2
    exact ⟨hb, h1⟩
  | false =>
    rw [hb] at h
    simp only [Bool.false_eq_true, if_false] at h
    cases hl : AssetVersion.load_dependencies store av with
    | error e => rw [hl] at h; exact absurd h (by simp [Except.map])
    | ok ds =>
      rw [hl] at h
      simp only [Except.map] at h
      injection h with h'
      have h1 : av.deps ++ ds = l := congrArg Prod.fst h'
      have h2 : av.withDeps (av.deps ++ ds) true = av' := congrArg Prod.snd h'
      subst h2
      exact ⟨withDeps_depsLoaded .., h1 ▸ withDeps_deps ..⟩

/-- C1: dependencies() is memoized.  If a first call on any Store succeeds
with list l and updated object av2, then a second call on av2 - against ANY
Store state, which formalizes that it performs no Store reads at all -
returns the very same list (hence element-wise equal by (slot, version)
identity) and leaves the object unchanged. -/
theorem c1_dependencies_memoized (store store2 : StoreData) (av : AssetVersionSt)
    (l : List AssetVersionSt) (av2 : AssetVersionSt)
    (h : AssetVersion.dependencies store av = Except.ok (l, av2)) :
    AssetVersion.dependencies store2 av2 = Except.ok (l, av2) ∧
      av2.depsLoaded = true := by
  obtain ⟨hflag, hdeps⟩ := dependencies_loaded_state store av l av2 h
  refine ⟨?_, hflag⟩
  unfold AssetVersion.dependencies
  rw [hflag, hdeps]
  simp

/-- Witness for C1: the fresh AssetVersion (A, 1) resolves against the empty
Store to no dependencies; the second call, here even against the different
Store storeC10, returns the same cached empty list and state. -/
theorem c1_dependencies_memoized_witness :
    AssetVersion.dependencies storeC10 avC1done = Except.ok ([], avC1done) ∧
      avC1done.depsLoaded = true := by
  exact c1_dependencies_memoized [] storeC10 avC1 [] avC1done rfl

/-! ## C2, C9: add_version -/

/-- C2 counterexample: the claim says add_version returns the newly created
AssetVersion to the caller, but Asset.add_version has no return statement,
so the Python caller receives None.  Evaluated on a fresh asset for a slot
unknown to the Store: the version is appended and numbered 1, yet the value
handed back to the caller is None (isNone is true), not the new
AssetVersion. -/
theorem c2_add_version_counterexample :
    ((Asset.load ([] : StoreData) (Slot.mk "N" (some ContentType.File))).bind
        (fun a => Asset.add_version ([] : StoreData) a (some [Entry.file "/p"]))).map
      (fun r => (r.2.isNone, r.1.latest_version,
        r.1.versions.map AssetVersionSt.version)) =
        Except.ok (true, 1, [1]) := by
  exact rfl

/-- C2 as amended: when the Store has no payload for the next version number
and the supplied contents are non-empty and all valid for the declared kind,
add_version constructs a new AssetVersion numbered latest_version + 1 holding
the given contents, appends it and increments latest_version - but the call
returns None to the caller (the method has no return statement), not the new
AssetVersion; the new version is reachable only through the versions list. -/
theorem c2_add_version_amended (store : StoreData) (a : Asset) (k : ContentType)
    (cs : List Entry) (h1 : a.slot.type_ = some k)
    (h2 : Store.get_version_data store a.slot.id (a.latest_version + 1) = none)
    (h3 : cs ≠ []) (h4 : ∀ e ∈ cs, is_valid k e = true) :
    Asset.add_version store a (some cs) =
      Except.ok
        ({ a with
            versions := a.versions ++
              [AssetVersionSt.mk a.slot.id (some k) (a.latest_version + 1)
                (some (Container.mk k cs)) [] false],
            latest_version := a.latest_version + 1 }, none) := by
  unfold Asset.add_version AssetVersion.init AssetVersion.init_container
    AssetVersion.is_new_version
  rw [h1, h2]
  cases cs with
  | nil => exact absurd rfl h3
  | cons c cs' =>
    have hset := set_contents_eq_of_all k [] (c :: cs') h4
    cases k with
    | File => simp [container_factory, hset, Except.map]
    | Asset => simp [container_factory, hset, Except.map]

/-- Witness for the amended C2: adding version 1 with one valid file path to
a fresh asset appends exactly that AssetVersion and returns None. -/
theorem c2_add_version_amended_witness :
    Asset.add_version ([] : StoreData) assetC2 (some [Entry.file "/p"]) =
      Except.ok
        ({ assetC2 with
            versions := assetC2.versions ++
              [AssetVersionSt.mk assetC2.slot.id (some ContentType.File)
                (assetC2.latest_version + 1)
                (some (Container.mk ContentType.File [Entry.file "/p"])) [] false],
            latest_version := assetC2.latest_version + 1 }, none) := by
  exact c2_add_version_amended ([] : StoreData) assetC2 ContentType.File
    [Entry.file "/p"] rfl rfl (by decide) (by decide)

/-- C9: when add_version is given a non-empty contents list containing an
element that is invalid for the declared kind (and the Store has no payload
for the new number), no error is raised: the new AssetVersion is still
appended and latest_version incremented, but set_contents silently rejected
the bulk set, so the new version's container - and hence its contents() - is
empty. -/
theorem c9_invalid_contents_silently_rejected (store : StoreData) (a : Asset)
    (k : ContentType) (cs : List Entry) (h1 : a.slot.type_ = some k)
    (h2 : Store.get_version_data store a.slot.id (a.latest_version + 1) = none)
    (h3 : cs ≠ []) (h4 : ∃ e ∈ cs, is_valid k e = false) :
    Asset.add_version store a (some cs) =
      Except.ok
        ({ a with
            versions := a.versions ++
              [AssetVersionSt.mk a.slot.id (some k) (a.latest_version + 1)
                (some (Container.mk k [])) [] false],
            latest_version := a.latest_version + 1 }, none) := by
  unfold Asset.add_version AssetVersion.init AssetVersion.init_container
    AssetVersion.is_new_version
  rw [h1, h2]
  cases cs with
  | nil => exact absurd rfl h3
  | cons c cs' =>
    have hset := set_contents_eq_of_bad k [] (c :: cs') h4
    cases k with
    | File => simp [container_factory, hset, Except.map]
    | Asset => simp [container_factory, hset, Except.map]

/-- Witness for C9: adding a contents list whose only element is a composite
reference to a File-kind asset succeeds, appends version 1, and that
version's container is empty. -/
theorem c9_invalid_contents_silently_rejected_witness :
    Asset.add_version ([] : StoreData) assetC2 (some [Entry.assetRef "X" 1]) =
      Except.ok
        ({ assetC2 with
            versions := assetC2.versions ++
              [AssetVersionSt.mk assetC2.slot.id (some ContentType.File)
                (assetC2.latest_version + 1)
                (some (Container.mk ContentType.File [])) [] false],
            latest_version := assetC2.latest_version + 1 }, none) := by
  exact c9_invalid_contents_silently_rejected ([] : StoreData) assetC2
    ContentType.File [Entry.assetRef "X" 1] rfl rfl (by decide)
    ⟨Entry.assetRef "X" 1, by decide, rfl⟩

/-! ## C8: missing payload at construction from history -/

/-- C8 counterexample: the claim says constructing an AssetVersion from
history with no persisted payload does not fail, but in the packaged
revision the constructor classifies such a version as new
(_is_new_version is true) and, with no contents supplied, raises
AssetVersionInitializationException: constructing (S, 5) against the empty
Store fails. -/
theorem c8_missing_payload_counterexample :
    AssetVersion.init ([] : StoreData) "S" (some ContentType.File) 5 none =
      Except.error PErr.assetVersionInitialization := by
  exact rfl

/-- C8 as amended: when the Store has no payload for (slot, version), the
earlier revision's AssetVersion._load_container leaves the container absent
(Python None) with only a warning - the behaviour the claim describes - but
the packaged revision's constructor instead fails with
AssetVersionInitializationException, because the missing payload makes
_is_new_version true and construction from history supplies no contents. -/
theorem c8_missing_payload_amended (store : StoreData) (slotId : String)
    (t : Option ContentType) (v : Nat)
    (h : Store.get_version_data store slotId v = none) :
    AssetVersion.load_container store slotId v = Except.ok none ∧
    AssetVersion.init store slotId t v none =
      Except.error PErr.assetVersionInitialization := by
  constructor
  · unfold AssetVersion.load_container
    rw [h]
  · unfold AssetVersion.init AssetVersion.init_container AssetVersion.is_new_version
    rw [h]
    rfl

/-- Witness for the amended C8 at (S, 5) against the empty Store. -/
theorem c8_missing_payload_amended_witness :
    AssetVersion.load_container ([] : StoreData) "S" 5 = Except.ok none ∧
    AssetVersion.init ([] : StoreData) "S" (some ContentType.Asset) 5 none =
      Except.error PErr.assetVersionInitialization := by
  exact c8_missing_payload_amended ([] : StoreData) "S" (some ContentType.Asset) 5 rfl

/-! ## C5: TokenNotFound handling in name generation -/

/-- slot_parser can only raise TokenNotFoundException. -/
theorem parse_slot_token_error_eq (slot t : String) (e : PErr)
    (h : parse_slot_token slot t = Except.error e) : e = PErr.tokenNotFound := by
  unfold parse_slot_token at h
  cases hc : slot_token_capture slot.data t.data with
  | some cs => rw [hc] at h; exact Except.noConfusion h
  | none => rw [hc] at h; injection h with h'; exact h'.symm

/-- If any declared token fails to parse, the joined extraction raises
TokenNotFoundException (whichever failing token is reached first). -/
theorem parse_all_fails (slot : String) :
    ∀ toks : List String,
      (∃ t ∈ toks, parse_slot_token slot t = Except.error PErr.tokenNotFound) →
      parse_all slot toks = Except.error PErr.tokenNotFound := by
  intro toks
  induction toks with
  | nil => rintro ⟨t, ht, _⟩; exact absurd ht (List.not_mem_nil t)
  | cons a ts ih =>
    rintro ⟨t, ht, hfail⟩
    unfold parse_all
    cases ha : parse_slot_token slot a with
    | error e =>
      have he := parse_slot_token_error_eq slot a e ha
      subst he
      rfl
    | ok v =>
      rcases List.mem_cons.mp ht with rfl | hts
      · rw [ha] at hfail; exact Except.noConfusion hfail
      · rw [ih ⟨t, hts, hfail⟩]

/-- C5 counterexample: the rule of rulesC5 fully matches P:x/A:b, declaring
the tokens A and MISS; the sub-pattern for MISS does not match the path and
slot_parser raises TokenNotFoundException - but generate_name returns the
ordinary value Python None to its caller (an Except.ok result, not the
Except.error TokenNotFound the claim requires to propagate). -/
theorem c5_token_not_found_counterexample :
    get_tokens rulesC5 "P:x/A:b" = ["A", "MISS"] ∧
    parse_slot_token "P:x/A:b" "MISS" = Except.error PErr.tokenNotFound ∧
    generate_name rulesC5 "P:x/A:b" = Except.ok none := by
  exact ⟨rfl, rfl, rfl⟩

/-- C5 as amended: when a rule has fully matched the slot path and a declared
token's sub-pattern does not match, generation does fail internally with
TokenNotFound and no shorter name is produced, but generate_name catches the
exception and returns an absent result (Python None) to its caller instead
of propagating it. -/
theorem c5_token_not_found_caught (rules : List NameRule) (slot t : String)
    (h1 : t ∈ get_tokens rules slot)
    (h2 : parse_slot_token slot t = Except.error PErr.tokenNotFound) :
    generate_name rules slot = Except.ok none := by
  unfold generate_name
  rw [parse_all_fails slot (get_tokens rules slot) ⟨t, h1, h2⟩]

/-- Witness for the amended C5: the rule of rulesC5w fully matches X:1/T:a,
its token Q is absent from the path, and generate_name returns None. -/
theorem c5_token_not_found_caught_witness :
    generate_name rulesC5w "X:1/T:a" = Except.ok none := by
  exact c5_token_not_found_caught rulesC5w "X:1/T:a" "Q" (by decide) (by decide)

/-! ## C3: shape of a loaded version history -/

/-- A successfully constructed AssetVersion carries the version number and
slot id it was built for. -/
theorem init_fields (store : StoreData) (sid : String) (st : Option ContentType)
    (v : Nat) (cts : Option (List Entry)) (av : AssetVersionSt)
    (h : AssetVersion.init store sid st v cts = Except.ok av) :
    av.version = v ∧ av.slotId = sid := by
  unfold AssetVersion.init at h
  cases hic : AssetVersion.init_container store sid st v cts with
  | error e => rw [hic] at h; exact Except.noConfusion h
  | ok c =>
    rw [hic] at h
    have h' : Except.ok (AssetVersionSt.mk sid st v (some c) [] false) =
        Except.ok av := h
    injection h' with h''
    subst h''
    exact ⟨rfl, rfl⟩

/-- The _load_versions loop reproduces the Store-reported version numbers in
order, each bound to the asset's slot. -/
theorem build_versions_fields (store : StoreData) (sid : String)
    (st : Option ContentType) :
    ∀ (ks : List Nat) (vs : List AssetVersionSt),
      Asset.build_versions store sid st ks = Except.ok vs →
      vs.map AssetVersionSt.version = ks ∧ ∀ x ∈ vs, x.slotId = sid := by
  intro ks
  induction ks with
  | nil =>
    intro vs h
    have h' : (Except.ok [] : Except PErr (List AssetVersionSt)) = Except.ok vs := h
    injection h' with h''
    subst h''
    simp
  | cons v ks ih =>
    intro vs h
    unfold Asset.build_versions at h
    cases hav : AssetVersion.init store sid st v none with
    | error e =>
      rw [hav] at h
      have h' : (Except.error e : Except PErr (List AssetVersionSt)) =
          Except.ok vs := h
      exact Except.noConfusion h'
    | ok av =>
      rw [hav] at h
      cases hrest : Asset.build_versions store sid st ks with
      | error e =>
        rw [hrest] at h
        have h' : (Except.error e : Except PErr (List AssetVersionSt)) =
            Except.ok vs := h
        exact Except.noConfusion h'
      | ok rest =>
        rw [hrest] at h
        have h' : Except.ok (av :: rest) = Except.ok vs := h
        injection h' with h''
        subst h''
        obtain ⟨hm, hs⟩ := ih rest hrest
        obtain ⟨hv, hsid⟩ := init_fields store sid st v none av hav
        refine ⟨by simp [hv, hm], ?_⟩
        intro x hx
        rcases List.mem_cons.mp hx with rfl | hxs
        · exact hsid
        · exact hs x hxs

/-- Shape of any successfully loaded Asset: its version numbers are exactly
the Store-reported keys in reported order, its latest_version is the version
of the last element (0 when there is none), every version is bound to the
slot, and the slot is stored as given. -/
theorem load_fields (store : StoreData) (slot : Slot) (a : Asset)
    (h : Asset.load store slot = Except.ok a) :
    a.versions.map AssetVersionSt.version = store_version_keys store slot.id ∧
    a.latest_version = (store_version_keys store slot.id).getLast?.getD 0 ∧
    (∀ x ∈ a.versions, x.slotId = slot.id) ∧ a.slot = slot := by
  unfold Asset.load Asset.load_versions at h
  cases he : Store.get_entries store slot.id with
  | none =>
    rw [he] at h
    have h' : Except.ok (Asset.mk slot [] 0) = Except.ok a := h
    injection h' with h''
    subst h''
    have hk : store_version_keys store slot.id = [] := by
      unfold store_version_keys Store.get_versions_data
      rw [he]
      rfl
    simp [hk]
  | some sd =>
    rw [he] at h
    cases htm : type_matches (Store.get_type_data store slot.id) slot.type_ with
    | false =>
      rw [htm] at h
      have h' : (Except.error PErr.dataMismatch : Except PErr Asset) =
          Except.ok a := h
      exact Except.noConfusion h'
    | true =>
      rw [htm] at h
      cases hv : Store.get_versions_data store slot.id with
      | none =>
        rw [hv] at h
        have h' : (Except.error PErr.typeError : Except PErr Asset) =
            Except.ok a := h
        exact Except.noConfusion h'
      | some vdict =>
        rw [hv] at h
        have h2 : Except.map (fun p => Asset.mk slot p.1 p.2)
            (Except.map
              (fun vs => (vs,
                match vs.getLast? with | none => 0 | some av => av.version))
              (Asset.build_versions store slot.id slot.type_ (vdict.map Prod.fst))) =
            Except.ok a := h
        cases hb : Asset.build_versions store slot.id slot.type_ (vdict.map Prod.fst) with
        | error e =>
          rw [hb] at h2
          have h' : (Except.error e : Except PErr Asset) = Except.ok a := h2
          exact Except.noConfusion h'
        | ok vs =>
          rw [hb] at h2
          have h' : Except.ok (Asset.mk slot vs
              (match vs.getLast? with | none => 0 | some av => av.version)) =
              Except.ok a := h2
          injection h' with h''
          subst h''
          obtain ⟨hm, hs⟩ := build_versions_fields store slot.id slot.type_
            (vdict.map Prod.fst) vs hb
          have hk : store_version_keys store slot.id = vdict.map Prod.fst := by
            unfold store_version_keys
            rw [hv]
            rfl
          refine ⟨by simp [hm, hk], ?_, hs, rfl⟩
          rw [hk, ← hm, List.getLast?_map]
          cases vs.getLast? with
          | none => rfl
          | some av => rfl

/-- C3 counterexample: loading slot S of kind File from storeC3, whose entry
reports only version 2, succeeds and yields the non-empty version sequence
[2] with latest_version 2, in which version number 1 occurs zero times - a
history that does not start at 1, violating the claimed sorted, gap-free
invariant of the constructed Asset. -/
theorem c3_gap_counterexample :
    (Asset.load storeC3 slotC3).map
        (fun a => (a.versions.map AssetVersionSt.version, a.latest_version,
          (a.versions.map AssetVersionSt.version).count 1)) =
      Except.ok ([2], 2, 0) := by
  exact rfl

/-- C3 as amended: after successfully constructing an Asset for a Slot, the
versions sequence mirrors exactly the Store-reported version numbers in the
Store's iteration order, each version is bound to this slot, and
latest_version equals the version number of the last element (0 when the
sequence is empty).  Ascending gap-free numbering starting at 1 holds only
when the Store reports such numbers; the loader performs no sorting and no
gap check. -/
theorem c3_load_mirrors_store (store : StoreData) (slot : Slot)
    (h : ∃ a, Asset.load store slot = Except.ok a) :
    (Asset.load store slot).map
        (fun a => (a.versions.map AssetVersionSt.version, a.latest_version,
          a.versions.all (fun x => x.slotId == slot.id))) =
      Except.ok (store_version_keys store slot.id,
        (store_version_keys store slot.id).getLast?.getD 0, true) := by
  obtain ⟨a, ha⟩ := h
  obtain ⟨h1, h2, h3, _⟩ := load_fields store slot a ha
  rw [ha]
  simp only [Except.map, h1, h2]
  refine congrArg Except.ok ?_
  refine congrArg (fun b => (store_version_keys store slot.id,
    (store_version_keys store slot.id).getLast?.getD 0, b)) ?_
  rw [List.all_eq_true]
  intro x hx
  simp [h3 x hx]

/-- Witness for the amended C3: storeC3w reports versions 1 then 2 for
slot S, and the loaded asset mirrors exactly that with latest_version 2. -/
theorem c3_load_mirrors_store_witness :
    (Asset.load storeC3w slotC3).map
        (fun a => (a.versions.map AssetVersionSt.version, a.latest_version,
          a.versions.all (fun x => x.slotId == slotC3.id))) =
      Except.ok (store_version_keys storeC3w slotC3.id,
        (store_version_keys storeC3w slotC3.id).getLast?.getD 0, true) := by
  exact c3_load_mirrors_store storeC3w slotC3 ⟨_, rfl⟩

/-! ## C10: silently omitted unresolvable dependency -/

/-- The number of loaded versions matching a version number equals that
number's multiplicity among the mapped version numbers. -/
theorem filter_version_count (vs : List AssetVersionSt) (c : Nat) :
    (vs.filter (fun x => x.version == c)).length =
      (vs.map AssetVersionSt.version).count c := by
  rw [← List.countP_eq_length_filter, List.count_eq_countP, List.countP_map]
  rfl

/-- Resolution of a dependency list: when every recorded pair's Asset loads
and every involved slot's Store keys are distinct, resolution succeeds with
at most one match per pair, and strictly fewer matches than pairs as soon as
some recorded version number is absent from its slot's keys. -/
theorem resolve_deps_bound (store : StoreData) :
    ∀ ds : List (String × Nat),
      (∀ d ∈ ds,
        (∃ a, Asset.load store (Slot.mk d.1 (Store.get_type_data store d.1)) =
          Except.ok a) ∧ (store_version_keys store d.1).Nodup) →
      ∃ l, AssetVersion.resolve_deps store ds = Except.ok l ∧
        l.length ≤ ds.length ∧
        ((∃ d ∈ ds, d.2 ∉ store_version_keys store d.1) →
          l.length < ds.length) := by
  intro ds
  induction ds with
  | nil =>
    intro _
    exact ⟨[], rfl, Nat.le_refl 0,
      by rintro ⟨d, hd, _⟩; exact absurd hd (List.not_mem_nil d)⟩
  | cons d ds ih =>
    intro hall
    obtain ⟨⟨a, ha⟩, hnd⟩ := hall d (List.mem_cons_self d ds)
    obtain ⟨l, hl, hle, hlt⟩ := ih (fun x hx => hall x (List.mem_cons_of_mem d hx))
    have hcount : (a.versions.filter (fun x => x.version == d.2)).length =
        (store_version_keys store d.1).count d.2 := by
      rw [filter_version_count,
        (load_fields store (Slot.mk d.1 (Store.get_type_data store d.1)) a ha).1]
    have hb1 : (a.versions.filter (fun x => x.version == d.2)).length ≤ 1 := by
      rw [hcount]
      exact List.nodup_iff_count_le_one.mp hnd d.2
    refine ⟨a.versions.filter (fun x => x.version == d.2) ++ l, ?_, ?_, ?_⟩
    · unfold AssetVersion.resolve_deps
      rw [ha, hl]
    · rw [List.length_append]
      simp only [List.length_cons]
      omega
    · rintro ⟨x, hx, hmiss⟩
      rw [List.length_append]
      simp only [List.length_cons]
      rcases List.mem_cons.mp hx with rfl | hxs
      · have hz : (a.versions.filter (fun y => y.version == x.2)).length = 0 := by
          rw [hcount]
          exact List.count_eq_zero_of_not_mem hmiss
        omega
      · have := hlt ⟨x, hxs, hmiss⟩
        omega

/-- C10: when dependencies() resolves the Store-recorded pairs of a fresh
AssetVersion and some recorded pair's version number is absent from the
target Asset's loaded version history, no error is raised, the resolution is
still marked complete, and the returned list is strictly shorter than the
Store-recorded dependency list - the unresolvable dependency is silently
omitted. -/
theorem c10_missing_dependency_omitted (store : StoreData) (av : AssetVersionSt)
    (h0 : av.depsLoaded = false) (h1 : av.deps = [])
    (hall : ∀ d ∈ Store.get_dependency_data store av.slotId av.version,
      (∃ a, Asset.load store (Slot.mk d.1 (Store.get_type_data store d.1)) =
        Except.ok a) ∧ (store_version_keys store d.1).Nodup)
    (hmiss : ∃ d ∈ Store.get_dependency_data store av.slotId av.version,
      d.2 ∉ store_version_keys store d.1) :
    ∃ l av2, AssetVersion.dependencies store av = Except.ok (l, av2) ∧
      av2.depsLoaded = true ∧
      l.length < (Store.get_dependency_data store av.slotId av.version).length := by
  obtain ⟨l, hl, _, hlt⟩ := resolve_deps_bound store _ hall
  refine ⟨l, av.withDeps l true, ?_, withDeps_depsLoaded .., hlt hmiss⟩
  unfold AssetVersion.dependencies AssetVersion.load_dependencies
  rw [h0]
  simp only [Bool.false_eq_true, if_false]
  rw [hl, h1]
  rfl

/-- Witness for C10: in storeC10, (A, 1) records the single dependency
(B, 2) while slot B's history is only [1]; dependencies() succeeds, marks
resolution complete, and returns a list shorter than the recorded one. -/
theorem c10_missing_dependency_omitted_witness :
    ∃ l av2, AssetVersion.dependencies storeC10 avC10 = Except.ok (l, av2) ∧
      av2.depsLoaded = true ∧
      l.length <
        (Store.get_dependency_data storeC10 avC10.slotId avC10.version).length := by
  refine c10_missing_dependency_omitted storeC10 avC10 rfl rfl ?_ ?_
  · intro d hd
    have hds : Store.get_dependency_data storeC10 avC10.slotId avC10.version =
        [("B", 2)] := rfl
    rw [hds] at hd
    have hd' : d = ("B", 2) := by simpa using hd
    subst hd'
    exact ⟨⟨_, rfl⟩, by decide⟩
  · exact ⟨("B", 2), by decide, by decide⟩

end VKPipeline
